import Mathlib

/-!
Verification of the AoE2 scenario/campaign binary decoder and trigger-model
reconstructor, shallowly embedded from the repository sources
`extract_campaign.py` (both the heuristic-scan and the directory-header
variants) and `scenario_to_python.py`.

Bytes are modelled as `Nat` (values below 256 in every buffer considered);
Python byte strings become `List Byte`; fallible parsing becomes `Except`.
-/

set_option maxRecDepth 100000

namespace AoE2

abbrev Byte := Nat

/-- Byte at index `i` of a buffer, with the out-of-range default never used
by callers that first check bounds (mirrors Python indexing after a bounds
guard). -/
def byteAt (data : List Byte) (i : Nat) : Byte := data.getD i 0

/-- Python slice `data[a:b]`. -/
def sliceBytes (data : List Byte) (a b : Nat) : List Byte :=
  (data.drop a).take (b - a)

/-- ASCII digit test, the `[0-9]` character class of the scanner's regex. -/
def isDigit (b : Byte) : Bool := decide (0x30 ≤ b ∧ b ≤ 0x39)

/-- Whether the regex `rb'1\.[0-9]{2}'` of `find_scenario_offsets`
(`extract_campaign.py`, heuristic-scan variant, line 16) matches at
position `i`: a literal `'1'`, a literal `'.'`, then two digits, all
within bounds. -/
def matchAt (data : List Byte) (i : Nat) : Bool :=
  decide (i + 4 ≤ data.length) && (byteAt data i == 0x31) &&
    (byteAt data (i + 1) == 0x2E) && isDigit (byteAt data (i + 2)) &&
    isDigit (byteAt data (i + 3))

/-- Left-to-right non-overlapping scan of `re.finditer` over the 4-byte
pattern: the leftmost match is taken and scanning resumes 4 bytes after a
match, 1 byte after a non-match.  `fuel` bounds the recursion; since each
step advances the position by at least one byte, `fuel = data.length`
(as used by `reFinditer`) is always sufficient. -/
def reFinditerAux (data : List Byte) : Nat → Nat → List Nat
  | 0, _ => []
  | fuel + 1, i =>
    if i < data.length then
      if matchAt data i then i :: reFinditerAux data fuel (i + 4)
      else reFinditerAux data fuel (i + 1)
    else []

/-- All (non-overlapping) regex match start positions, as in
`list(re.finditer(pattern, data))` of `find_scenario_offsets`. -/
def reFinditer (data : List Byte) : List Nat :=
  reFinditerAux data data.length 0

/-- Confirmation test of `find_scenario_offsets` (lines 23-26): at least 8
bytes remain from the match and `data[offset+4:offset+8] == b'\x00\x00\x00\x00'`. -/
def confirmAt (data : List Byte) (o : Nat) : Bool :=
  decide (o + 8 ≤ data.length) && (sliceBytes data (o + 4) (o + 8) == [0, 0, 0, 0])

/-- Embeds `find_scenario_offsets` (`extract_campaign.py`, heuristic-scan
variant, lines 13-28): regex matches filtered by the all-zero confirmation. -/
def find_scenario_offsets (data : List Byte) : List Nat :=
  (reFinditer data).filter (confirmAt data)

/-- The per-entry slicing loop of `extract_scenarios` (lines 66-73): entry
`i` spans from its offset to the next offset, the last entry extending to
end-of-buffer.  Structured as recursion over the offset list, which is the
same range computation as the indexed Python loop. -/
def chainSlices (data : List Byte) : List Nat → List (List Byte)
  | [] => []
  | [a] => [sliceBytes data a data.length]
  | a :: b :: rest => sliceBytes data a b :: chainSlices data (b :: rest)

/-- Embeds the pure core of `extract_scenarios` (`extract_campaign.py`,
heuristic-scan variant): the list of extracted scenario byte-streams. -/
def extract_scenarios (data : List Byte) : List (List Byte) :=
  chainSlices data (find_scenario_offsets data)

/-- Modelled from the spec: the spec's description of a confirmed heuristic
marker — a 4-ASCII-byte version marker of the shape `"D.DD"` (any digit,
a period, two digits) with at least 8 bytes remaining from the offset and
the 4 bytes immediately following the marker all zero.  Used to compare the
spec's wording against the code's `find_scenario_offsets`. -/
def specShapeConfirmAt (data : List Byte) (o : Nat) : Bool :=
  decide (o + 8 ≤ data.length) && isDigit (byteAt data o) &&
    (byteAt data (o + 1) == 0x2E) && isDigit (byteAt data (o + 2)) &&
    isDigit (byteAt data (o + 3)) &&
    (sliceBytes data (o + 4) (o + 8) == [0, 0, 0, 0])

/- ### Basic facts about the scanner -/

theorem length_sliceBytes (data : List Byte) (a b : Nat) :
    (sliceBytes data a b).length = min (b - a) (data.length - a) := by
  simp [sliceBytes]

theorem mem_reFinditerAux (data : List Byte) :
    ∀ fuel i j, j ∈ reFinditerAux data fuel i → i ≤ j ∧ matchAt data j = true := by
  intro fuel
  induction fuel with
  | zero => intro i j h; simp [reFinditerAux] at h
  | succ n ih =>
    intro i j h
    simp only [reFinditerAux] at h
    by_cases hi : i < data.length
    · simp only [hi, if_true] at h
      by_cases hm : matchAt data i = true
      · simp only [hm, if_true, List.mem_cons] at h
        rcases h with rfl | h
        · exact ⟨Nat.le_refl _, hm⟩
        · rcases ih (i + 4) j h with ⟨h1, h2⟩
          exact ⟨by omega, h2⟩
      · simp only [hm, if_false] at h
        rcases ih (i + 1) j h with ⟨h1, h2⟩
        exact ⟨by omega, h2⟩
    · simp [hi] at h

theorem pairwise_reFinditerAux (data : List Byte) :
    ∀ fuel i, (reFinditerAux data fuel i).Pairwise (· < ·) := by
  intro fuel
  induction fuel with
  | zero => intro i; simp [reFinditerAux]
  | succ n ih =>
    intro i
    simp only [reFinditerAux]
    by_cases hi : i < data.length
    · simp only [hi, if_true]
      by_cases hm : matchAt data i = true
      · simp only [hm, if_true]
        refine List.Pairwise.cons ?_ (ih (i + 4))
        intro j hj
        have := (mem_reFinditerAux data n (i + 4) j hj).1
        omega
      · simp only [hm, if_false]
        exact ih (i + 1)
    · simp [hi]

theorem mem_find_scenario_offsets {data : List Byte} {o : Nat} :
    o ∈ find_scenario_offsets data ↔
      o ∈ reFinditer data ∧ confirmAt data o = true := by
  simp [find_scenario_offsets, List.mem_filter]

theorem confirmAt_bound {data : List Byte} {o : Nat}
    (h : confirmAt data o = true) : o + 8 ≤ data.length := by
  simp only [confirmAt, Bool.and_eq_true, decide_eq_true_eq] at h
  exact h.1

theorem find_scenario_offsets_pairwise (data : List Byte) :
    (find_scenario_offsets data).Pairwise (· < ·) :=
  (pairwise_reFinditerAux data data.length 0).filter _

theorem find_scenario_offsets_bound {data : List Byte} {o : Nat}
    (h : o ∈ find_scenario_offsets data) : o + 8 ≤ data.length :=
  confirmAt_bound (mem_find_scenario_offsets.mp h).2

/- ### Length accounting for the heuristic extraction -/

theorem chainSlices_sum (data : List Byte) :
    ∀ os : List Nat, (∀ o ∈ os, o ≤ data.length) → os.Chain' (· ≤ ·) →
      ((chainSlices data os).map List.length).sum =
        data.length - os.headD data.length := by
  intro os
  induction os with
  | nil => intro _ _; simp [chainSlices]
  | cons a tl ih =>
    intro hb hc
    cases tl with
    | nil =>
      simp [chainSlices, length_sliceBytes]
    | cons b rest =>
      have hab : a ≤ b := (List.chain'_cons.mp hc).1
      have hbl : b ≤ data.length := hb b (by simp)
      have htl := ih (fun o ho => hb o (List.mem_cons_of_mem _ ho))
        (List.chain'_cons.mp hc).2
      simp only [chainSlices, List.map_cons, List.sum_cons, htl,
        length_sliceBytes, List.headD_cons]
      have : min (b - a) (data.length - a) = b - a :=
        Nat.min_eq_left (Nat.sub_le_sub_right hbl a)
      omega

/-- Test buffer: a 9-byte heuristic archive whose single confirmed scenario
marker is at offset 1, not 0 (one stray byte before the `"1.54"` marker). -/
def c1buf : List Byte := [0x00, 0x31, 0x2E, 0x35, 0x34, 0, 0, 0, 0]

/-- The spec's own 8-byte example buffer `"1.54" + 4 zero bytes`, whose sole
confirmed offset is 0. -/
def buf854 : List Byte := [0x31, 0x2E, 0x35, 0x34, 0, 0, 0, 0]

/-- C1 fails as stated: `c1buf` has one confirmed offset, yet the extracted
entry lengths sum to 8 while the buffer is 9 bytes long — the bytes before
the first confirmed offset are not part of any entry. -/
theorem C1_counterexample :
    find_scenario_offsets c1buf = [1] ∧
      ¬ ((extract_scenarios c1buf).map List.length).sum = c1buf.length := by
  decide

/-- C1 (amended): for a heuristic-scan archive with at least one confirmed
offset, the sum of the extracted entry byte lengths equals the buffer length
minus the first confirmed offset; within the region from the first confirmed
offset to end-of-buffer there are no gaps and no overlaps, the last entry
absorbing all trailing bytes. -/
theorem C1_amended (data : List Byte) (h : find_scenario_offsets data ≠ []) :
    ((extract_scenarios data).map List.length).sum =
      data.length - (find_scenario_offsets data).headD 0 := by
  have hb : ∀ o ∈ find_scenario_offsets data, o ≤ data.length := by
    intro o ho
    have := find_scenario_offsets_bound ho
    omega
  have hc : (find_scenario_offsets data).Chain' (· ≤ ·) :=
    ((find_scenario_offsets_pairwise data).chain').imp
      fun _ _ hlt => Nat.le_of_lt hlt
  have := chainSlices_sum data (find_scenario_offsets data) hb hc
  rcases hos : find_scenario_offsets data with _ | ⟨a, tl⟩
  · exact absurd hos h
  · rw [hos] at this
    simpa [extract_scenarios, hos] using this

/-- Witness for C1 (amended) at the spec's 8-byte example buffer. -/
theorem C1_witness :
    find_scenario_offsets buf854 ≠ [] ∧
      ((extract_scenarios buf854).map List.length).sum =
        buf854.length - (find_scenario_offsets buf854).headD 0 :=
  ⟨by decide, C1_amended buf854 (by decide)⟩

/- ### C6: which offsets the scanner confirms -/

/-- An 8-byte buffer starting with the marker `"2.54"` followed by 4 zero
bytes: it has the spec's `"D.DD"` shape with zero confirmation, but the
code's regex requires a literal `'1'` as the first byte. -/
def d254 : List Byte := [0x32, 0x2E, 0x35, 0x34, 0, 0, 0, 0]

/-- C6 fails as stated: offset 0 of `d254` passes the spec's
shape-plus-zeros test (`"2.54"` is a digit, a period, two digits, followed
by 4 zero bytes with 8 bytes remaining), yet the scanner confirms no offset
at all, because its pattern demands the first digit be the literal `'1'`. -/
theorem C6_counterexample :
    specShapeConfirmAt d254 0 = true ∧ find_scenario_offsets d254 = [] := by
  decide

/-- C6 (amended): every offset the scanner confirms does satisfy the
shape-plus-zeros test, and moreover its first marker byte is the literal
digit `'1'` (the scanner's pattern is `1.DD`, not any-digit `D.DD`); the
converse inclusion fails, both because of the literal `'1'` and because the
underlying scan is non-overlapping. -/
theorem C6_amended (data : List Byte) (o : Nat)
    (h : o ∈ find_scenario_offsets data) :
    specShapeConfirmAt data o = true ∧ byteAt data o = 0x31 := by
  rcases mem_find_scenario_offsets.mp h with ⟨hm, hcf⟩
  have hmatch := (mem_reFinditerAux data data.length 0 o hm).2
  simp only [matchAt, Bool.and_eq_true, beq_iff_eq, decide_eq_true_eq] at hmatch
  obtain ⟨⟨⟨⟨hlen4, h1⟩, hdot⟩, hd2⟩, hd3⟩ := hmatch
  simp only [confirmAt, Bool.and_eq_true, beq_iff_eq, decide_eq_true_eq] at hcf
  refine ⟨?_, h1⟩
  simp only [specShapeConfirmAt, Bool.and_eq_true, beq_iff_eq,
    decide_eq_true_eq]
  refine ⟨⟨⟨⟨⟨hcf.1, ?_⟩, hdot⟩, hd2⟩, hd3⟩, hcf.2⟩
  rw [h1]
  decide

/-- Witness for C6 (amended) at the confirmed offset 0 of the spec's
example buffer. -/
theorem C6_witness :
    specShapeConfirmAt buf854 0 = true ∧ byteAt buf854 0 = 0x31 :=
  C6_amended buf854 0 (by decide)

/- ### C9: the scanner never reads past the end of the buffer -/

/-- C9: the heuristic offset scanner is total, and every offset it confirms
leaves at least 8 bytes in the buffer, so reading the 4-byte marker and its
4-byte confirmation window never goes out of bounds; a match starting within
the last 7 bytes is discarded by the `offset + 8 <= len(data)` guard. -/
theorem C9_scanner_in_bounds (data : List Byte) (o : Nat)
    (h : o ∈ find_scenario_offsets data) : o + 8 ≤ data.length :=
  find_scenario_offsets_bound h

/-- Witness for C9 at the spec's example buffer. -/
theorem C9_witness : (0 : Nat) + 8 ≤ buf854.length :=
  C9_scanner_in_bounds buf854 0 (by decide)

/- ### Directory-header campaign parser (`src/extract_campaign.py`) -/

/-- A binary file opened for reading: the Python file object's buffer and
current position. -/
structure Reader where
  data : List Byte
  pos : Nat
deriving DecidableEq

/-- Python `f.read(n)`: returns up to `n` bytes from the current position
(fewer at end-of-file, without error) and advances the position by the
number of bytes actually returned. -/
def fread (r : Reader) (n : Nat) : List Byte × Reader :=
  let bs := (r.data.drop r.pos).take n
  (bs, ⟨r.data, r.pos + bs.length⟩)

/-- Little-endian value of a byte string, as computed by
`struct.unpack('<I', ...)` / `struct.unpack('<H', ...)`. -/
def leVal (bs : List Byte) : Nat :=
  bs.foldr (fun b acc => b + 256 * acc) 0

/-- `struct.unpack('<I', f.read(4))[0]`: raises `struct.error` when fewer
than 4 bytes remain. -/
def readU32 (r : Reader) : Except String (Nat × Reader) :=
  let (bs, r2) := fread r 4
  if bs.length = 4 then .ok (leVal bs, r2) else .error "struct.error"

/-- `struct.unpack('<H', f.read(2))[0]`: raises `struct.error` when fewer
than 2 bytes remain. -/
def readU16 (r : Reader) : Except String (Nat × Reader) :=
  let (bs, r2) := fread r 2
  if bs.length = 2 then .ok (leVal bs, r2) else .error "struct.error"

/-- One scenario directory record of `extract_campaign`
(`src/extract_campaign.py`, lines 51-79): declared size, declared offset,
display name and storage filename (kept as raw bytes; their UTF-8 decoding
uses `errors='replace'` and never fails). -/
structure ScenEntry where
  size : Nat
  offset : Nat
  name : List Byte
  filename : List Byte
deriving DecidableEq

/-- Reads one directory record: size, offset, tag, length-prefixed name,
tag, length-prefixed filename.  Tag mismatches are warnings only and do not
affect the result. -/
def readEntry (r : Reader) : Except String (ScenEntry × Reader) := do
  let (size, r1) ← readU32 r
  let (offset, r2) ← readU32 r1
  let (_sid1, r3) ← readU16 r2
  let (nameLen, r4) ← readU16 r3
  let (nameBs, r5) := fread r4 nameLen
  let (_sid2, r6) ← readU16 r5
  let (fnLen, r7) ← readU16 r6
  let (fnBs, r8) := fread r7 fnLen
  return (⟨size, offset, nameBs, fnBs⟩, r8)

/-- The `for i in range(scenario_count)` record loop. -/
def readEntries (r : Reader) : Nat → Except String (List ScenEntry × Reader)
  | 0 => .ok ([], r)
  | n + 1 => do
    let (e, r2) ← readEntry r
    let (es, r3) ← readEntries r2 n
    return (e :: es, r3)

/-- The `for _ in range(dep_count)` dependency loop. -/
def readDeps (r : Reader) : Nat → Except String (List Nat × Reader)
  | 0 => .ok ([], r)
  | n + 1 => do
    let (d, r2) ← readU32 r
    let (ds, r3) ← readDeps r2 n
    return (d :: ds, r3)

/-- Everything `extract_campaign` recovers from a directory-header
campaign buffer: the parsed header fields, the directory records, and the
extracted per-scenario byte ranges. -/
structure CampaignResult where
  version : List Byte
  depCount : Nat
  deps : List Nat
  campaignName : List Byte
  count : Nat
  entries : List ScenEntry
  extracted : List (List Byte)
deriving DecidableEq

/-- Embeds `extract_campaign` (`src/extract_campaign.py`, lines 11-100,
directory-header variant): version (ASCII-decoded, so any byte at or above
128 raises), dependency count and list, 256-byte null-padded campaign name,
scenario count, that many directory records, then for each record a
`f.seek(offset); f.read(size)` extraction of its declared byte range. -/
def extract_campaign (data : List Byte) : Except String CampaignResult :=
  let r0 : Reader := ⟨data, 0⟩
  let vr := fread r0 4
  if vr.1.all (fun b => decide (b < 128)) then
    match readU32 vr.2 with
    | .error e => .error e
    | .ok (depCount, r2) =>
      match readDeps r2 depCount with
      | .error e => .error e
      | .ok (deps, r3) =>
        let nr := fread r3 256
        match readU32 nr.2 with
        | .error e => .error e
        | .ok (count, r5) =>
          match readEntries r5 count with
          | .error e => .error e
          | .ok (entries, _) =>
            .ok ⟨vr.1, depCount, deps, nr.1.takeWhile (fun b => b != 0),
              count, entries,
              entries.map (fun en => sliceBytes data en.offset (en.offset + en.size))⟩
  else .error "UnicodeDecodeError"

theorem readEntries_length :
    ∀ (n : Nat) (r : Reader) (es : List ScenEntry) (r' : Reader),
      readEntries r n = .ok (es, r') → es.length = n := by
  intro n
  induction n with
  | zero =>
    intro r es r' h
    simp only [readEntries, Except.ok.injEq] at h
    obtain ⟨h1, _⟩ := Prod.mk.injEq .. ▸ h
    simp [← h1]
  | succ n ih =>
    intro r es r' h
    simp only [readEntries, bind, Except.bind] at h
    cases he : readEntry r with
    | error e => rw [he] at h; exact absurd h (by simp)
    | ok pr =>
      rw [he] at h
      obtain ⟨e, r2⟩ := pr
      dsimp only at h
      cases hes : readEntries r2 n with
      | error e2 => rw [hes] at h; exact absurd h (by simp)
      | ok pr2 =>
        rw [hes] at h
        obtain ⟨es2, r3⟩ := pr2
        simp only [pure, Except.pure, Except.ok.injEq, Prod.mk.injEq] at h
        obtain ⟨h1, _⟩ := h
        rw [← h1, List.length_cons, ih r2 es2 r3 hes]

theorem extract_campaign_ok :
    ∀ (data : List Byte) (res : CampaignResult),
      extract_campaign data = .ok res →
      res.entries.length = res.count ∧
      res.extracted.map List.length =
        res.entries.map (fun en => min en.size (data.length - en.offset)) := by
  intro data res h
  simp only [extract_campaign] at h
  split at h
  · split at h
    · exact absurd h (by simp)
    split at h
    · exact absurd h (by simp)
    split at h
    · exact absurd h (by simp)
    split at h
    · exact absurd h (by simp)
    rename_i count r5 entries r6 hentries
    simp only [Except.ok.injEq] at h
    subst h
    refine ⟨readEntries_length _ _ _ _ hentries, ?_⟩
    simp [List.map_map, Function.comp, length_sliceBytes,
      Nat.add_sub_cancel_left]
  · exact absurd h (by simp)

/-- The 256-byte null-padded campaign-name field, all zeros. -/
def zeros256 : List Byte := List.replicate 256 0

/-- A well-formed 284-byte directory-header campaign: version `"2.00"`,
no dependencies, empty name, `scenario_count = 1`, one record declaring
`size = 5`, `offset = 0`, empty display name and filename. -/
def dirGood : List Byte :=
  [0x32, 0x2E, 0x30, 0x30] ++ [0, 0, 0, 0] ++ zeros256 ++ [1, 0, 0, 0] ++
    [5, 0, 0, 0] ++ [0, 0, 0, 0] ++ [0x60, 0x0A] ++ [0, 0] ++
    [0x60, 0x0A] ++ [0, 0]

/-- Like `dirGood` but the single record declares `size = 1000`, far past
the 284-byte end of the buffer. -/
def dirOver : List Byte :=
  [0x32, 0x2E, 0x30, 0x30] ++ [0, 0, 0, 0] ++ zeros256 ++ [1, 0, 0, 0] ++
    [0xE8, 0x03, 0, 0] ++ [0, 0, 0, 0] ++ [0x60, 0x0A] ++ [0, 0] ++
    [0x60, 0x0A] ++ [0, 0]

/-- A buffer declaring `scenario_count = 2` but holding only one
well-formed record. -/
def dirTwoOne : List Byte :=
  [0x32, 0x2E, 0x30, 0x30] ++ [0, 0, 0, 0] ++ zeros256 ++ [2, 0, 0, 0] ++
    [5, 0, 0, 0] ++ [0, 0, 0, 0] ++ [0x60, 0x0A] ++ [0, 0] ++
    [0x60, 0x0A] ++ [0, 0]

/-- C2 fails as stated: `dirOver` parses without error, but its single
entry's extracted byte length is 284 (the whole remaining buffer), not the
declared size 1000 — `f.read(size)` silently truncates at end-of-file
instead of failing or reading `size` bytes. -/
theorem C2_counterexample :
    (extract_campaign dirOver).map
        (fun r => (r.entries.map ScenEntry.size, r.extracted.map List.length)) =
      Except.ok ([1000], [284]) ∧ (1000 : Nat) ≠ 284 :=
  ⟨by rfl, by decide⟩

/-- C2 (amended): for every directory-header campaign that parses, the
number of entries read equals the declared `scenario_count`, and each
extracted entry's byte length equals the declared `size` truncated to the
bytes available from its offset, `min size (len - offset)` — so it equals
`size` exactly whenever `offset + size` is within the buffer, while
out-of-bounds declarations silently truncate.  A buffer declaring
`scenario_count = 2` with only one well-formed record fails with a
`struct.error` when reading the second record's first field, rather than
silently returning one entry. -/
theorem C2_amended :
    (∀ (data : List Byte) (res : CampaignResult),
        extract_campaign data = .ok res →
        res.entries.length = res.count ∧
        res.extracted.map List.length =
          res.entries.map (fun en => min en.size (data.length - en.offset))) ∧
      extract_campaign dirTwoOne = .error "struct.error" :=
  ⟨extract_campaign_ok, by rfl⟩

/-- The parse result of the well-formed buffer `dirGood`. -/
def dirGoodRes : CampaignResult :=
  ⟨[0x32, 0x2E, 0x30, 0x30], 0, [], [], 1, [⟨5, 0, [], []⟩],
    [[0x32, 0x2E, 0x30, 0x30, 0]]⟩

/-- Witness for C2 (amended) at the well-formed one-entry campaign. -/
theorem C2_witness :
    extract_campaign dirGood = .ok dirGoodRes ∧
      (dirGoodRes.entries.length = dirGoodRes.count ∧
        dirGoodRes.extracted.map List.length =
          dirGoodRes.entries.map
            (fun en => min en.size (dirGood.length - en.offset))) :=
  ⟨by rfl, C2_amended.1 dirGood dirGoodRes (by rfl)⟩

/- ### C7: behaviour of the batch write loop on a failing write -/

/-- The per-entry output loop shared by `extract_scenarios`
(`extract_campaign.py`, heuristic variant, lines 76-86) and
`extract_campaign` (`src/extract_campaign.py`, lines 89-97): each entry is
written to its own file, with no exception handling around the write.
`writeOk i` models whether the I/O write of entry `i` succeeds.  The first
component collects the indices whose files were written (they persist on
disk), the second is the index whose write raised, if any; entries after a
raising write are never reached. -/
def writeAll (slices : List (List Byte)) (writeOk : Nat → Bool) (i : Nat) :
    List Nat × Option Nat :=
  match slices with
  | [] => ([], none)
  | _ :: rest =>
    if writeOk i then
      let (ws, e) := writeAll rest writeOk (i + 1)
      (i :: ws, e)
    else ([], some i)

/-- A 16-byte heuristic archive holding two confirmed scenarios
(`"1.54"` and `"1.36"`, each followed by 4 zero bytes). -/
def buf16 : List Byte :=
  [0x31, 0x2E, 0x35, 0x34, 0, 0, 0, 0, 0x31, 0x2E, 0x33, 0x36, 0, 0, 0, 0]

/-- C7 fails as stated: over the two entries extracted from `buf16`, a
write failure on entry 0 aborts the whole batch — no entry is written, the
loop raises at index 0, and extraction never continues to entry 1. -/
theorem C7_counterexample :
    (extract_scenarios buf16).length = 2 ∧
      writeAll (extract_scenarios buf16) (fun i => decide (i ≠ 0)) 0 =
        ([], some 0) := by
  decide

/-- C7 (amended): a failure while writing one entry's output file aborts
the whole batch: with the first failing write at relative index `j`, the
entries before `j` are written and persist, the loop raises at `j`, and no
later entry is extracted or written. -/
theorem C7_amended (slices : List (List Byte)) (writeOk : Nat → Bool) :
    ∀ (i j : Nat), j < slices.length →
      (∀ k, k < j → writeOk (i + k) = true) → writeOk (i + j) = false →
      writeAll slices writeOk i = (List.range' i j, some (i + j)) := by
  induction slices with
  | nil => intro i j hj _ _; simp at hj
  | cons s rest ih =>
    intro i j hj hpre hfail
    cases j with
    | zero =>
      simp only [Nat.add_zero] at hfail
      simp [writeAll, hfail]
    | succ j' =>
      have h0 : writeOk i = true := by
        have := hpre 0 (by omega)
        simpa using this
      have hrec := ih (i + 1) j' (by simpa using hj)
        (fun k hk => by
          have := hpre (k + 1) (by omega)
          simpa [Nat.add_assoc, Nat.add_comm 1 k] using this)
        (by
          have : i + 1 + j' = i + (j' + 1) := by omega
          rw [this]; exact hfail)
      simp only [writeAll, h0, if_true, hrec]
      simp only [Prod.mk.injEq, Option.some.injEq]
      exact ⟨(List.range'_succ ..).symm, by omega⟩

/-- Witness for C7 (amended): over the two entries of `buf16`, with the
write of entry 1 failing, entry 0 is written and the loop raises at 1. -/
theorem C7_witness :
    writeAll (extract_scenarios buf16) (fun i => decide (i = 0)) 0 =
      (List.range' 0 1, some (0 + 1)) :=
  C7_amended _ _ 0 1 (by decide)
    (fun k hk => by
      have : k = 0 := by omega
      subst this; decide)
    (by decide)

/- ### The scenario-to-source converter (`scenario_to_python.py`) -/

/-- Embeds the `CONDITION_NAMES` dictionary (`scenario_to_python.py`,
lines 24-59).  Code 0 is present but maps to Python `None` (skip), which is
modelled as a stored `none`. -/
def CONDITION_NAMES : List (Int × Option String) :=
  [(0, none),
   (1, some "bring_object_to_area"),
   (2, some "bring_object_to_object"),
   (3, some "own_objects"),
   (4, some "accumulate_attribute"),
   (5, some "objects_in_area"),
   (6, some "destroy_object"),
   (7, some "capture_object"),
   (8, some "timer"),
   (9, some "own_fewer_objects"),
   (10, some "timer"),
   (11, some "object_selected"),
   (12, some "ai_signal"),
   (13, some "player_defeated"),
   (14, some "object_has_target"),
   (15, some "object_visible"),
   (16, some "object_not_visible"),
   (17, some "researching_technology"),
   (18, some "technology_state"),
   (19, some "units_garrisoned"),
   (20, some "difficulty_level"),
   (21, some "chance"),
   (22, some "technology_state"),
   (23, some "variable_value"),
   (24, some "object_hp"),
   (25, some "diplomacy_state"),
   (26, some "script_call"),
   (27, some "object_visible_multiplayer"),
   (28, some "object_selected_multiplayer"),
   (29, some "object_has_action"),
   (30, some "or"),
   (31, some "ai_signal_multiplayer"),
   (32, some "xs_function"),
   (33, some "victory_timer")]

/-- Embeds the `EFFECT_NAMES` dictionary (`scenario_to_python.py`,
lines 62-127). -/
def EFFECT_NAMES : List (Int × Option String) :=
  [(0, none),
   (1, some "change_diplomacy"),
   (2, some "research_technology"),
   (3, some "send_chat"),
   (4, some "play_sound"),
   (5, some "activate_trigger"),
   (6, some "deactivate_trigger"),
   (7, some "ai_script_goal"),
   (8, some "create_object"),
   (9, some "task_object"),
   (10, some "declare_victory"),
   (11, some "kill_object"),
   (12, some "remove_object"),
   (13, some "change_view"),
   (14, some "unload"),
   (15, some "change_ownership"),
   (16, some "patrol"),
   (17, some "display_instructions"),
   (18, some "clear_instructions"),
   (19, some "patrol"),
   (20, some "freeze_object"),
   (21, some "use_advanced_buttons"),
   (22, some "damage_object"),
   (23, some "place_foundation"),
   (24, some "change_object_name"),
   (25, some "change_object_hp"),
   (26, some "change_object_attack"),
   (27, some "stop_object"),
   (28, some "attack_move"),
   (29, some "change_object_armor"),
   (30, some "change_object_range"),
   (31, some "change_object_speed"),
   (32, some "heal_object"),
   (33, some "teleport_object"),
   (34, some "change_object_stance"),
   (35, some "display_timer"),
   (36, some "enable_disable_object"),
   (37, some "enable_disable_technology"),
   (38, some "enable_unit_targeting"),
   (39, some "flash_objects"),
   (40, some "change_player_name"),
   (41, some "change_train_location"),
   (42, some "change_research_location"),
   (43, some "change_civilization_name"),
   (44, some "create_garrisoned_object"),
   (45, some "acknowledge_ai_signal"),
   (46, some "change_object_description"),
   (47, some "change_player_color"),
   (48, some "tribute"),
   (49, some "unlock_gate"),
   (50, some "lock_gate"),
   (51, some "activate_trigger"),
   (52, some "deactivate_trigger"),
   (53, some "ai_script_goal"),
   (54, some "change_variable"),
   (55, some "script_call"),
   (56, some "change_object_icon"),
   (57, some "replace_object"),
   (58, some "change_object_player_color"),
   (59, some "display_text"),
   (60, some "change_technology_cost"),
   (61, some "change_technology_research_time"),
   (62, some "change_technology_name"),
   (63, some "change_technology_description")]

/-- Embeds `EFFECT_VALID_PARAMS` (`scenario_to_python.py`, lines 131-172):
the per-operation whitelist of meaningful generic fields.  Python set
literals are modelled as lists of their distinct elements in source
order. -/
def EFFECT_VALID_PARAMS : List (String × List String) :=
  [("display_instructions", ["source_player", "message", "display_time"]),
   ("send_chat", ["source_player", "message"]),
   ("freeze_object", ["source_player", "object_list_unit_id", "area_x1", "area_y1", "area_x2", "area_y2"]),
   ("change_object_name", ["source_player", "message", "object_list_unit_id", "area_x1", "area_y1", "area_x2", "area_y2"]),
   ("change_object_attack", ["source_player", "object_list_unit_id", "area_x1", "area_y1", "area_x2", "area_y2", "quantity"]),
   ("change_object_armor", ["source_player", "object_list_unit_id", "area_x1", "area_y1", "area_x2", "area_y2", "quantity"]),
   ("change_object_range", ["source_player", "object_list_unit_id", "area_x1", "area_y1", "area_x2", "area_y2", "quantity"]),
   ("change_object_speed", ["source_player", "object_list_unit_id", "area_x1", "area_y1", "area_x2", "area_y2", "quantity"]),
   ("change_object_hp", ["source_player", "object_list_unit_id", "area_x1", "area_y1", "area_x2", "area_y2", "quantity"]),
   ("attack_move", ["source_player", "location_x", "location_y", "object_list_unit_id", "area_x1", "area_y1", "area_x2", "area_y2"]),
   ("task_object", ["source_player", "location_x", "location_y", "object_list_unit_id", "area_x1", "area_y1", "area_x2", "area_y2"]),
   ("patrol", ["source_player", "location_x", "location_y", "object_list_unit_id", "area_x1", "area_y1", "area_x2", "area_y2"]),
   ("create_object", ["source_player", "location_x", "location_y", "object_list_unit_id"]),
   ("kill_object", ["source_player", "object_list_unit_id", "area_x1", "area_y1", "area_x2", "area_y2"]),
   ("remove_object", ["source_player", "object_list_unit_id", "area_x1", "area_y1", "area_x2", "area_y2"]),
   ("change_view", ["source_player", "location_x", "location_y"]),
   ("change_ownership", ["source_player", "target_player", "object_list_unit_id", "area_x1", "area_y1", "area_x2", "area_y2"]),
   ("research_technology", ["source_player", "technology"]),
   ("change_diplomacy", ["source_player", "target_player", "diplomacy"]),
   ("activate_trigger", ["trigger_id"]),
   ("deactivate_trigger", ["trigger_id"]),
   ("declare_victory", ["source_player"]),
   ("play_sound", ["source_player", "location_x", "location_y", "sound_name"]),
   ("damage_object", ["source_player", "object_list_unit_id", "area_x1", "area_y1", "area_x2", "area_y2", "quantity"]),
   ("heal_object", ["source_player", "object_list_unit_id", "area_x1", "area_y1", "area_x2", "area_y2", "quantity"]),
   ("teleport_object", ["source_player", "location_x", "location_y", "object_list_unit_id", "area_x1", "area_y1", "area_x2", "area_y2"]),
   ("stop_object", ["source_player", "object_list_unit_id", "area_x1", "area_y1", "area_x2", "area_y2"]),
   ("change_object_stance", ["source_player", "object_list_unit_id", "area_x1", "area_y1", "area_x2", "area_y2"]),
   ("display_timer", ["source_player", "display_time", "message"]),
   ("enable_disable_object", ["source_player", "object_list_unit_id", "enabled"]),
   ("enable_disable_technology", ["source_player", "technology", "enabled"]),
   ("change_player_name", ["source_player", "message"]),
   ("change_civilization_name", ["source_player", "message"]),
   ("change_object_description", ["source_player", "message", "object_list_unit_id"]),
   ("tribute", ["source_player", "target_player", "quantity"]),
   ("unlock_gate", ["source_player", "object_list_unit_id", "area_x1", "area_y1", "area_x2", "area_y2"]),
   ("lock_gate", ["source_player", "object_list_unit_id", "area_x1", "area_y1", "area_x2", "area_y2"]),
   ("flash_objects", ["source_player", "object_list_unit_id", "area_x1", "area_y1", "area_x2", "area_y2"]),
   ("change_player_color", ["source_player", "player_color"]),
   ("display_text", ["source_player", "message", "display_time"])]

/-- Embeds `get_player_name` (`scenario_to_python.py`, lines 195-219) on
the integer path: `-1` means unspecified and maps to no symbol; ids outside
`0..8` also resolve to nothing. -/
def get_player_name (player_id : Int) : Option String :=
  if player_id = -1 then none
  else if player_id = 0 then some "PlayerId.GAIA"
  else if player_id = 1 then some "PlayerId.ONE"
  else if player_id = 2 then some "PlayerId.TWO"
  else if player_id = 3 then some "PlayerId.THREE"
  else if player_id = 4 then some "PlayerId.FOUR"
  else if player_id = 5 then some "PlayerId.FIVE"
  else if player_id = 6 then some "PlayerId.SIX"
  else if player_id = 7 then some "PlayerId.SEVEN"
  else if player_id = 8 then some "PlayerId.EIGHT"
  else none

/-- Embeds `get_condition_name` (lines 222-230) on the integer type-code
path: `CONDITION_NAMES.get(cond_type)` returns `None` both for the stored
`None` at code 0 and for codes absent from the dictionary. -/
def get_condition_name (cond_type : Int) : Option String :=
  (CONDITION_NAMES.lookup cond_type).join

/-- Embeds `get_effect_name` (lines 233-241) on the integer type-code
path. -/
def get_effect_name (effect_type : Int) : Option String :=
  (EFFECT_NAMES.lookup effect_type).join

/-- A decoded trigger condition: the type code plus the fixed superset of
generic fields the renderer reads (lines 364-393).  An attribute that is
absent or `None` in Python is `none` here. -/
structure Condition where
  condition_type : Int
  timer : Option Int
  quantity : Option Int
  source_player : Option Int
  unit_object : Option Int
  area_x1 : Option Int
  area_y1 : Option Int
  area_x2 : Option Int
  area_y2 : Option Int
deriving DecidableEq

/-- A decoded trigger effect: the type code plus the fixed superset of
generic fields the renderer reads (lines 404-465). -/
structure Effect where
  effect_type : Int
  source_player : Option Int
  target_player : Option Int
  message : Option String
  display_time : Option Int
  location_x : Option Int
  location_y : Option Int
  area_x1 : Option Int
  area_y1 : Option Int
  area_x2 : Option Int
  area_y2 : Option Int
  object_list_unit_id : Option Int
  quantity : Option Int
deriving DecidableEq

/-- A decoded trigger (name, enabled flag, ordered conditions and
effects). -/
structure Trigger where
  name : String
  enabled : Bool
  conditions : List Condition
  effects : List Effect
deriving DecidableEq

/-- A whitelist-gated block of the effect renderer: the Python pattern
`if name in valid_params: ...` guarding a group of appended parameters. -/
def whenValid (vp : List String) (name : String) (xs : List String) :
    List String :=
  if vp.contains name then xs else []

/-- The condition parameter builder (`convert_scenario_to_python`,
lines 364-392): timer (positional, only for the `timer` method), quantity,
source player, unit object, then the area block whose `y1/x2/y2` values
are emitted only when `x1` is present and not `-1`. -/
def renderConditionParams (method : String) (c : Condition) : List String :=
  (if method = "timer" then
    match c.timer with
    | some t => if t > 0 then [toString t] else []
    | none => []
  else []) ++
  (match c.quantity with
   | some q => if q ≠ -1 then ["quantity=" ++ toString q] else []
   | none => []) ++
  (match c.source_player with
   | some p =>
     match get_player_name p with
     | some s => ["source_player=" ++ s]
     | none => []
   | none => []) ++
  (match c.unit_object with
   | some u => if u ≠ -1 then ["unit_object=" ++ toString u] else []
   | none => []) ++
  (match c.area_x1 with
   | some a1 =>
     if a1 ≠ -1 then
       ("area_x1=" ++ toString a1) ::
         ((match c.area_y1 with
           | some v => ["area_y1=" ++ toString v]
           | none => []) ++
          (match c.area_x2 with
           | some v => ["area_x2=" ++ toString v]
           | none => []) ++
          (match c.area_y2 with
           | some v => ["area_y2=" ++ toString v]
           | none => []))
     else []
   | none => [])

/-- One condition statement (lines 355-393): either the visible
skipped-type marker for an unresolved code, or a
`trigger_i.new_condition.method(...)` call. -/
def renderCondition (tv : String) (c : Condition) : List String :=
  match get_condition_name c.condition_type with
  | none => ["# Skipped condition type: " ++ toString c.condition_type]
  | some method =>
    [tv ++ ".new_condition." ++ method ++
      ("(" ++ String.intercalate ", " (renderConditionParams method c) ++ ")")]

/-- Python's message escaping for effect messages (line 427). -/
def pyEscapeMsg (msg : String) : String :=
  (msg.replace "\"" "\\\"").replace "\n" "\\n"

/-- The source-player block of the effect renderer (lines 411-415). -/
def srcPlayerParam (e : Effect) : List String :=
  match e.source_player with
  | some p =>
    match get_player_name p with
    | some s => ["source_player=" ++ s]
    | none => []
  | none => []

/-- The target-player block (lines 418-422). -/
def tgtPlayerParam (e : Effect) : List String :=
  match e.target_player with
  | some p =>
    match get_player_name p with
    | some s => ["target_player=" ++ s]
    | none => []
  | none => []

/-- The message block (lines 425-428): emitted only for a truthy
(non-empty) message. -/
def messageParam (e : Effect) : List String :=
  match e.message with
  | some msg =>
    if msg ≠ "" then ["message=\"" ++ pyEscapeMsg msg ++ "\""] else []
  | none => []

/-- The display-time block (lines 431-433). -/
def displayTimeParam (e : Effect) : List String :=
  match e.display_time with
  | some v => if v > 0 then ["display_time=" ++ toString v] else []
  | none => []

/-- The `location_y` sub-block (lines 439-440), nested inside the
`location_x` block. -/
def locYParam (e : Effect) : List String :=
  match e.location_y with
  | some v => ["location_y=" ++ toString v]
  | none => []

/-- The location block (lines 436-440): `location_y` is appended only when
`location_x` is present, not `-1`, and `location_y` is whitelisted. -/
def locationParams (vp : List String) (e : Effect) : List String :=
  match e.location_x with
  | some lx =>
    if lx ≠ -1 then
      ("location_x=" ++ toString lx) :: whenValid vp "location_y" (locYParam e)
    else []
  | none => []

/-- The `area_y1` sub-block (line 446-447). -/
def areaY1Param (e : Effect) : List String :=
  match e.area_y1 with
  | some v => ["area_y1=" ++ toString v]
  | none => []

/-- The `area_x2` sub-block (line 448-449). -/
def areaX2Param (e : Effect) : List String :=
  match e.area_x2 with
  | some v => ["area_x2=" ++ toString v]
  | none => []

/-- The `area_y2` sub-block (line 450-451). -/
def areaY2Param (e : Effect) : List String :=
  match e.area_y2 with
  | some v => ["area_y2=" ++ toString v]
  | none => []

/-- The area block (lines 443-451): the `y1/x2/y2` components are appended
only when `area_x1` is present and not `-1`, each under its own whitelist
membership. -/
def areaParams (vp : List String) (e : Effect) : List String :=
  match e.area_x1 with
  | some a1 =>
    if a1 ≠ -1 then
      ("area_x1=" ++ toString a1) ::
        (whenValid vp "area_y1" (areaY1Param e) ++
         whenValid vp "area_x2" (areaX2Param e) ++
         whenValid vp "area_y2" (areaY2Param e))
    else []
  | none => []

/-- The object-list-unit-id block (lines 454-457): the id is rendered via
the unit-id map with the raw number as fallback. -/
def oluParam (unitIdMap : Int → Option String) (e : Effect) : List String :=
  match e.object_list_unit_id with
  | some u =>
    if u ≠ -1 then
      ["object_list_unit_id=" ++ (unitIdMap u).getD (toString u)]
    else []
  | none => []

/-- The quantity block (lines 460-462). -/
def quantityParam (e : Effect) : List String :=
  match e.quantity with
  | some q => if q ≠ -1 then ["quantity=" ++ toString q] else []
  | none => []

/-- The effect parameter builder for a given whitelist `vp` (lines
408-462): the eight top-level blocks in source order, each gated on its
field name being whitelisted. -/
def renderEffectParamsCore (unitIdMap : Int → Option String)
    (vp : List String) (e : Effect) : List String :=
  whenValid vp "source_player" (srcPlayerParam e) ++
  whenValid vp "target_player" (tgtPlayerParam e) ++
  whenValid vp "message" (messageParam e) ++
  whenValid vp "display_time" (displayTimeParam e) ++
  whenValid vp "location_x" (locationParams vp e) ++
  whenValid vp "area_x1" (areaParams vp e) ++
  whenValid vp "object_list_unit_id" (oluParam unitIdMap e) ++
  whenValid vp "quantity" (quantityParam e)

/-- The effect parameter builder (lines 404-462):
`EFFECT_VALID_PARAMS.get(effect_method, set())` defaults an absent
whitelist to the empty set. -/
def renderEffectParams (unitIdMap : Int → Option String) (method : String)
    (e : Effect) : List String :=
  renderEffectParamsCore unitIdMap
    ((EFFECT_VALID_PARAMS.lookup method).getD []) e

/-- One effect statement (lines 397-465): either the visible skipped-type
marker for an unresolved code, or a `trigger_i.new_effect.method(...)`
call. -/
def renderEffect (unitIdMap : Int → Option String) (tv : String)
    (e : Effect) : List String :=
  match get_effect_name e.effect_type with
  | none => ["# Skipped effect type: " ++ toString e.effect_type]
  | some method =>
    [tv ++ ".new_effect." ++ method ++
      ("(" ++ String.intercalate ", "
        (renderEffectParams unitIdMap method e) ++ ")")]

/-- Python's trigger-name sanitisation (line 346): escape double quotes,
flatten newlines, and fall back to `Trigger i` for an empty name. -/
def pyTriggerName (i : Nat) (name : String) : String :=
  if name ≠ "" then (name.replace "\"" "\\\"").replace "\n" " "
  else "Trigger " ++ toString i

/-- The per-trigger emission (lines 344-467): comment, `add_trigger` call,
optional disabled marker, conditions, effects, then a blank line. -/
def renderTrigger (unitIdMap : Int → Option String) (i : Nat)
    (t : Trigger) : List String :=
  let tv := "trigger_" ++ toString i
  let tname := pyTriggerName i t.name
  ["# Trigger: " ++ tname,
   tv ++ " = trigger_manager.add_trigger(" ++ ("\"" ++ tname ++ "\"") ++ ")"] ++
  (if t.enabled then [] else [tv ++ ".enabled = False"]) ++
  t.conditions.flatMap (renderCondition tv) ++
  t.effects.flatMap (renderEffect unitIdMap tv) ++
  [""]

/-- A placed object as the unit loop reads it (lines 315-318).  The Python
code rounds the float coordinates to one decimal before printing; since no
claim settled here concerns coordinate values, they are modelled as
integers. -/
structure UnitRec where
  unit_const : Int
  x : Int
  y : Int
deriving DecidableEq

/-- The decoded scenario model the converter walks: source file basename
(with and without extension), map size, the per-player unit lists the
external library hands back, and the trigger list. -/
structure ScenarioModel where
  fileName : String
  baseName : String
  map_size : Int
  units : List (Int × List UnitRec)
  triggers : List Trigger
deriving DecidableEq

/-- The `PlayerId` enumeration the unit loop iterates (line 304), with each
member's `.name`. -/
def PLAYER_IDS : List (Int × String) :=
  [(0, "GAIA"), (1, "ONE"), (2, "TWO"), (3, "THREE"), (4, "FOUR"),
   (5, "FIVE"), (6, "SIX"), (7, "SEVEN"), (8, "EIGHT")]

/-- One `add_unit` statement (lines 321-327): resolved unit ids emit a live
call, unknown unit ids emit the commented-out line with the raw id. -/
def renderUnitLine (unitIdMap : Int → Option String) (pname : String)
    (u : UnitRec) : String :=
  match unitIdMap u.unit_const with
  | some un =>
    "unit_manager.add_unit(" ++ pname ++ ", unit_const=" ++ un ++
      ", x=" ++ toString u.x ++ ", y=" ++ toString u.y ++ ")"
  | none =>
    "# unit_manager.add_unit(" ++ pname ++ ", unit_const=" ++
      toString u.unit_const ++ ", x=" ++ toString u.x ++ ", y=" ++
      toString u.y ++ ")  # Unknown unit ID"

/-- The per-player unit block (lines 304-329): lines emitted for one
player, together with the unknown unit ids encountered there. -/
def renderPlayerUnits (unitIdMap : Int → Option String)
    (units : List (Int × List UnitRec)) (p : Int × String) :
    List String × List Int :=
  let us := (units.lookup p.1).getD []
  if us = [] then ([], [])
  else
    match get_player_name p.1 with
    | none => ([], [])
    | some pname =>
      (["", "# --- " ++ p.2 ++ " (" ++ toString us.length ++ " units) ---"] ++
        us.map (renderUnitLine unitIdMap pname),
       (us.filter (fun u => (unitIdMap u.unit_const).isNone)).map
         (fun u => u.unit_const))

/-- Python's repr of a list of ints, as interpolated on line 333. -/
def pyIntList (xs : List Int) : String :=
  "[" ++ String.intercalate ", " (xs.map toString) ++ "]"

/-- The 60-character `# ====...` section separator comment the converter
emits (lines 298, 339, 471 and their closers). -/
def sepLine : String := "# " ++ String.mk (List.replicate 60 (Char.ofNat 61))

/-- The units-and-buildings section (lines 297-335), including the trailing
note listing the first ten unknown unit ids (`sorted(set)[:10]`, modelled
as dedup-then-sort). -/
def unitsSection (unitIdMap : Int → Option String) (m : ScenarioModel) :
    List String :=
  let per := PLAYER_IDS.map (renderPlayerUnits unitIdMap m.units)
  let unknowns := (per.map Prod.snd).flatten
  [sepLine,
   "# UNITS AND BUILDINGS",
   sepLine] ++
  (per.map Prod.fst).flatten ++
  (if unknowns = [] then []
   else
     let distinct := List.insertionSort (· ≤ ·) unknowns.dedup
     ["", "# NOTE: " ++ toString distinct.length ++
       " unknown unit IDs were commented out: " ++
       pyIntList (distinct.take 10) ++ "..."]) ++
  [""]

/-- The triggers section (lines 338-467). -/
def triggersSection (unitIdMap : Int → Option String)
    (triggers : List Trigger) : List String :=
  if triggers = [] then []
  else
    [sepLine,
     "# TRIGGERS",
     sepLine,
     ""] ++
    triggers.enum.flatMap (fun p => renderTrigger unitIdMap p.1 p.2)

/-- Embeds the pure rendering core of `convert_scenario_to_python`
(`scenario_to_python.py`, lines 244-492): the full generated source text,
built single-pass from the decoded model and joined with newlines
(line 479). -/
def convert_scenario_to_python (unitIdMap : Int → Option String)
    (m : ScenarioModel) : String :=
  String.intercalate "\n" (
    ["\"\"\"",
     "Auto-generated from: " ++ m.fileName,
     "Generated by scenario_to_python.py",
     "\"\"\"",
     "",
     "import sys",
     "import io",
     "sys.stdout = io.TextIOWrapper(sys.stdout.buffer, encoding=\x27utf-8\x27, errors=\x27replace\x27)",
     "sys.stderr = io.TextIOWrapper(sys.stderr.buffer, encoding=\x27utf-8\x27, errors=\x27replace\x27)",
     "",
     "from AoE2ScenarioParser.scenarios.aoe2_de_scenario import AoE2DEScenario",
     "from AoE2ScenarioParser.datasets.players import PlayerId",
     "from AoE2ScenarioParser.datasets.units import UnitInfo",
     "from AoE2ScenarioParser.datasets.buildings import BuildingInfo",
     "from AoE2ScenarioParser.datasets.trigger_lists import *",
     "from AoE2ScenarioParser.datasets.techs import TechInfo",
     "from AoE2ScenarioParser.datasets.heroes import HeroInfo",
     "from AoE2ScenarioParser.datasets.other import OtherInfo",
     "",
     "# Create scenario",
     "scenario = AoE2DEScenario.from_default()",
     "",
     "# Get managers",
     "unit_manager = scenario.unit_manager",
     "trigger_manager = scenario.trigger_manager",
     "map_manager = scenario.map_manager",
     "",
     "# Set map size",
     "map_manager.map_size = " ++ toString m.map_size,
     ""] ++
    unitsSection unitIdMap m ++
    triggersSection unitIdMap m.triggers ++
    [sepLine,
     "# SAVE SCENARIO",
     sepLine,
     "scenario.write_to_file(" ++
       ("\"" ++ m.baseName ++ "_recreated.aoe2scenario\"") ++ ")",
     "",
     "print(" ++
       ("\"Scenario saved as: " ++ m.baseName ++ "_recreated.aoe2scenario\"") ++
       ")"])

/- ### C8: the emitter is deterministic -/

/-- C8: the Source Emitter is deterministic: rendering the statement
sequence twice from the same decoded scenario model (same path, units,
triggers, conditions, effects, unit-id map) produces byte-identical text.
The embedded renderer is a pure function of the model, mirroring the Python
code, which reads no state outside its arguments and iterates only
deterministically ordered structures. -/
theorem C8_deterministic_emission (unitIdMap : Int → Option String)
    (m : ScenarioModel) :
    convert_scenario_to_python unitIdMap m =
      convert_scenario_to_python unitIdMap m := rfl

/- ### C4: unknown type codes are visibly skipped -/

/-- C4: for every trigger containing a condition or effect whose integer
type code is outside the known dictionaries, the emitted trigger block
contains the explicit skipped-type marker line referencing that exact
numeric code — the statement is never silently omitted. -/
theorem C4_unknown_code_visible (unitIdMap : Int → Option String) (i : Nat)
    (t : Trigger) :
    (∀ c ∈ t.conditions, CONDITION_NAMES.lookup c.condition_type = none →
      ("# Skipped condition type: " ++ toString c.condition_type) ∈
        renderTrigger unitIdMap i t) ∧
    (∀ e ∈ t.effects, EFFECT_NAMES.lookup e.effect_type = none →
      ("# Skipped effect type: " ++ toString e.effect_type) ∈
        renderTrigger unitIdMap i t) := by
  constructor
  · intro c hc hlk
    have hrc : renderCondition ("trigger_" ++ toString i) c =
        ["# Skipped condition type: " ++ toString c.condition_type] := by
      simp [renderCondition, get_condition_name, hlk]
    have hmem : ("# Skipped condition type: " ++ toString c.condition_type) ∈
        t.conditions.flatMap (renderCondition ("trigger_" ++ toString i)) :=
      List.mem_flatMap.mpr
        ⟨c, hc, by rw [hrc]; exact List.mem_singleton_self _⟩
    simp only [renderTrigger]
    exact List.mem_append_left _ (List.mem_append_left _
      (List.mem_append_right _ hmem))
  · intro e he hlk
    have hre : renderEffect unitIdMap ("trigger_" ++ toString i) e =
        ["# Skipped effect type: " ++ toString e.effect_type] := by
      simp [renderEffect, get_effect_name, hlk]
    have hmem : ("# Skipped effect type: " ++ toString e.effect_type) ∈
        t.effects.flatMap (renderEffect unitIdMap ("trigger_" ++ toString i)) :=
      List.mem_flatMap.mpr
        ⟨e, he, by rw [hre]; exact List.mem_singleton_self _⟩
    simp only [renderTrigger]
    exact List.mem_append_left _ (List.mem_append_right _ hmem)

/-- A condition with the unknown type code 999 and every field unset. -/
def condUnknown : Condition :=
  ⟨999, none, none, none, none, none, none, none, none⟩

/-- An effect with the unknown type code 999 and every field unset. -/
def effUnknown : Effect :=
  ⟨999, none, none, none, none, none, none, none, none, none, none, none, none⟩

/-- A trigger holding one unknown-code condition and one unknown-code
effect. -/
def trigUnknown : Trigger := ⟨"t", true, [condUnknown], [effUnknown]⟩

/-- Witness for C4: code 999 is outside both dictionaries and both marker
lines appear in the rendered trigger. -/
theorem C4_witness :
    ("# Skipped condition type: " ++ toString (999 : Int)) ∈
        renderTrigger (fun _ => none) 0 trigUnknown ∧
      ("# Skipped effect type: " ++ toString (999 : Int)) ∈
        renderTrigger (fun _ => none) 0 trigUnknown :=
  ⟨(C4_unknown_code_visible (fun _ => none) 0 trigUnknown).1 condUnknown
      (by simp [trigUnknown]) (by rfl),
   (C4_unknown_code_visible (fun _ => none) 0 trigUnknown).2 effUnknown
      (by simp [trigUnknown]) (by rfl)⟩

/- ### C5: the -1 player sentinel is omitted, never resolved -/

/-- C5: a player field holding the sentinel `-1` never resolves to any
symbolic player name (in particular not to GAIA), and the emitted parameter
list is exactly the one produced with that player field absent — the player
parameter is omitted entirely, for conditions and for both player slots of
effects. -/
theorem C5_sentinel_player_omitted (method : String)
    (unitIdMap : Int → Option String) (nm : String) (c : Condition)
    (e : Effect) :
    get_player_name (-1) = none ∧
    (c.source_player = some (-1) →
      renderConditionParams method c =
        renderConditionParams method { c with source_player := none }) ∧
    (e.source_player = some (-1) →
      renderEffectParams unitIdMap nm e =
        renderEffectParams unitIdMap nm { e with source_player := none }) ∧
    (e.target_player = some (-1) →
      renderEffectParams unitIdMap nm e =
        renderEffectParams unitIdMap nm { e with target_player := none }) := by
  refine ⟨rfl, ?_, ?_, ?_⟩
  · intro h
    simp [renderConditionParams, h, get_player_name]
  · intro h
    simp [renderEffectParams, renderEffectParamsCore, srcPlayerParam,
      tgtPlayerParam, messageParam, displayTimeParam, locationParams,
      locYParam, areaParams, areaY1Param, areaX2Param, areaY2Param,
      oluParam, quantityParam, whenValid, h, get_player_name]
  · intro h
    simp [renderEffectParams, renderEffectParamsCore, srcPlayerParam,
      tgtPlayerParam, messageParam, displayTimeParam, locationParams,
      locYParam, areaParams, areaY1Param, areaX2Param, areaY2Param,
      oluParam, quantityParam, whenValid, h, get_player_name]

/-- The spec's scenario: a `destroy_object` condition whose source player
is the sentinel `-1`, with other renderable fields populated. -/
def condDestroy : Condition :=
  ⟨6, none, some 1, some (-1), some 5, some 2, some 3, some 4, some 5⟩

/-- Witness for C5 at the spec's `destroy_object` scenario. -/
theorem C5_witness :
    get_player_name (-1) = none ∧
      renderConditionParams "destroy_object" condDestroy =
        renderConditionParams "destroy_object"
          { condDestroy with source_player := none } :=
  ⟨(C5_sentinel_player_omitted "destroy_object" (fun _ => none) "x"
      condDestroy effUnknown).1,
   (C5_sentinel_player_omitted "destroy_object" (fun _ => none) "x"
      condDestroy effUnknown).2.1 (by rfl)⟩

/- ### C10: operations without a whitelist entry emit zero parameters -/

/-- C10: for every effect whose type code resolves to a known operation
name that has no entry in `EFFECT_VALID_PARAMS` (for example
`clear_instructions` or `use_advanced_buttons`), the whitelist defaults to
the empty set: the parameter list is empty and the emitted statement is a
bare zero-argument call, regardless of the field values the record
holds. -/
theorem C10_no_whitelist_empty_params (unitIdMap : Int → Option String)
    (tv : String) (e : Effect) (nm : String)
    (h1 : get_effect_name e.effect_type = some nm)
    (h2 : EFFECT_VALID_PARAMS.lookup nm = none) :
    renderEffectParams unitIdMap nm e = [] ∧
      renderEffect unitIdMap tv e = [tv ++ ".new_effect." ++ nm ++ "()"] := by
  have hp : renderEffectParams unitIdMap nm e = [] := by
    simp [renderEffectParams, renderEffectParamsCore, h2, whenValid]
  refine ⟨hp, ?_⟩
  have hparen :
      ("(" ++ String.intercalate ", " ([] : List String) ++ ")" : String) =
        "()" := rfl
  simp only [renderEffect, h1, hp, hparen]

/-- An effect with the `clear_instructions` type code 18 and every generic
field slot holding a non-sentinel value. -/
def effClear : Effect :=
  ⟨18, some 1, some 2, some "hi", some 5, some 3, some 4, some 1, some 2,
   some 3, some 4, some 110, some 7⟩

/-- Witness for C10 at a fully-populated `clear_instructions` effect. -/
theorem C10_witness :
    renderEffectParams (fun _ => none) "clear_instructions" effClear = [] ∧
      renderEffect (fun _ => none) "trigger_0" effClear =
        ["trigger_0" ++ ".new_effect." ++ "clear_instructions" ++ "()"] :=
  C10_no_whitelist_empty_params (fun _ => none) "trigger_0" effClear
    "clear_instructions" (by rfl) (by rfl)

/- ### C3: emitted parameter count is bounded by the whitelist size -/

/-- Indicator of a boolean gate, counting at most one emitted parameter. -/
def ind (b : Bool) : Nat := if b then 1 else 0

theorem ind_true : ind true = 1 := rfl

theorem ind_false : ind false = 0 := rfl

theorem ind_le_one (b : Bool) : ind b ≤ 1 := by cases b <;> simp [ind]

theorem whenValid_length_le {xs : List String} (vp : List String)
    (name : String) (h : xs.length ≤ 1) :
    (whenValid vp name xs).length ≤ ind (vp.contains name) := by
  by_cases hc : vp.contains name = true
  · rw [whenValid, if_pos hc, hc, ind_true]
    exact h
  · rw [whenValid, if_neg hc]
    simp

theorem srcPlayerParam_length (e : Effect) : (srcPlayerParam e).length ≤ 1 := by
  unfold srcPlayerParam
  repeat' split
  all_goals simp

theorem tgtPlayerParam_length (e : Effect) : (tgtPlayerParam e).length ≤ 1 := by
  unfold tgtPlayerParam
  repeat' split
  all_goals simp

theorem messageParam_length (e : Effect) : (messageParam e).length ≤ 1 := by
  unfold messageParam
  repeat' split
  all_goals simp

theorem displayTimeParam_length (e : Effect) :
    (displayTimeParam e).length ≤ 1 := by
  unfold displayTimeParam
  repeat' split
  all_goals simp

theorem locYParam_length (e : Effect) : (locYParam e).length ≤ 1 := by
  unfold locYParam
  repeat' split
  all_goals simp

theorem areaY1Param_length (e : Effect) : (areaY1Param e).length ≤ 1 := by
  unfold areaY1Param
  repeat' split
  all_goals simp

theorem areaX2Param_length (e : Effect) : (areaX2Param e).length ≤ 1 := by
  unfold areaX2Param
  repeat' split
  all_goals simp

theorem areaY2Param_length (e : Effect) : (areaY2Param e).length ≤ 1 := by
  unfold areaY2Param
  repeat' split
  all_goals simp

theorem oluParam_length (unitIdMap : Int → Option String) (e : Effect) :
    (oluParam unitIdMap e).length ≤ 1 := by
  unfold oluParam
  repeat' split
  all_goals simp

theorem quantityParam_length (e : Effect) : (quantityParam e).length ≤ 1 := by
  unfold quantityParam
  repeat' split
  all_goals simp

theorem locationParams_length (vp : List String) (e : Effect) :
    (locationParams vp e).length ≤ 1 + ind (vp.contains "location_y") := by
  have hy := whenValid_length_le vp "location_y" (locYParam_length e)
  unfold locationParams
  repeat' split
  all_goals simp only [List.length_cons, List.length_nil]
  all_goals omega

theorem areaParams_length (vp : List String) (e : Effect) :
    (areaParams vp e).length ≤
      1 + ind (vp.contains "area_y1") + ind (vp.contains "area_x2") +
        ind (vp.contains "area_y2") := by
  have h1 := whenValid_length_le vp "area_y1" (areaY1Param_length e)
  have h2 := whenValid_length_le vp "area_x2" (areaX2Param_length e)
  have h3 := whenValid_length_le vp "area_y2" (areaY2Param_length e)
  unfold areaParams
  repeat' split
  all_goals simp only [List.length_cons, List.length_nil, List.length_append]
  all_goals omega

theorem length_filter_cons {α : Type} (p : α → Bool) (a : α) (l : List α) :
    (List.filter p (a :: l)).length = ind (p a) + (List.filter p l).length := by
  cases h : p a
  · simp [List.filter_cons, h, ind]
  · simp [List.filter_cons, h, ind, Nat.add_comm]

/-- The twelve distinct generic field names the effect renderer can gate
on, in block order. -/
def canonicalParamNames : List String :=
  ["source_player", "target_player", "message", "display_time",
   "location_x", "location_y", "area_x1", "area_y1", "area_x2", "area_y2",
   "object_list_unit_id", "quantity"]

theorem canonicalParamNames_nodup : canonicalParamNames.Nodup := by decide

theorem renderEffectParamsCore_le_filter (unitIdMap : Int → Option String)
    (vp : List String) (e : Effect) :
    (renderEffectParamsCore unitIdMap vp e).length ≤
      (canonicalParamNames.filter (fun n => vp.contains n)).length := by
  have hs := whenValid_length_le vp "source_player" (srcPlayerParam_length e)
  have ht := whenValid_length_le vp "target_player" (tgtPlayerParam_length e)
  have hm := whenValid_length_le vp "message" (messageParam_length e)
  have hd := whenValid_length_le vp "display_time" (displayTimeParam_length e)
  have ho := whenValid_length_le vp "object_list_unit_id"
    (oluParam_length unitIdMap e)
  have hq := whenValid_length_le vp "quantity" (quantityParam_length e)
  have hl : (whenValid vp "location_x" (locationParams vp e)).length ≤
      ind (vp.contains "location_x") + ind (vp.contains "location_y") := by
    by_cases hc : vp.contains "location_x" = true
    · rw [whenValid, if_pos hc, hc, ind_true]
      have := locationParams_length vp e
      omega
    · rw [whenValid, if_neg hc]
      simp
  have ha : (whenValid vp "area_x1" (areaParams vp e)).length ≤
      ind (vp.contains "area_x1") + ind (vp.contains "area_y1") +
        ind (vp.contains "area_x2") + ind (vp.contains "area_y2") := by
    by_cases hc : vp.contains "area_x1" = true
    · rw [whenValid, if_pos hc, hc, ind_true]
      have := areaParams_length vp e
      omega
    · rw [whenValid, if_neg hc]
      simp
  have hfilter :
      (canonicalParamNames.filter (fun n => vp.contains n)).length =
        ind (vp.contains "source_player") + ind (vp.contains "target_player") +
        ind (vp.contains "message") + ind (vp.contains "display_time") +
        ind (vp.contains "location_x") + ind (vp.contains "location_y") +
        ind (vp.contains "area_x1") + ind (vp.contains "area_y1") +
        ind (vp.contains "area_x2") + ind (vp.contains "area_y2") +
        ind (vp.contains "object_list_unit_id") +
        ind (vp.contains "quantity") := by
    simp only [canonicalParamNames, length_filter_cons, List.filter_nil,
      List.length_nil]
    omega
  simp only [renderEffectParamsCore, List.length_append]
  omega

theorem filter_contains_length_le (vp : List String) :
    (canonicalParamNames.filter (fun n => vp.contains n)).length ≤
      vp.length := by
  have hnd : (canonicalParamNames.filter (fun n => vp.contains n)).Nodup :=
    canonicalParamNames_nodup.filter _
  have hsub : (canonicalParamNames.filter (fun n => vp.contains n)) ⊆ vp := by
    intro x hx
    have hcx := (List.mem_filter.mp hx).2
    simpa using hcx
  exact (hnd.subperm hsub).length_le

/-- C3: for every effect whose operation has a declared whitelist of size
`k` in `EFFECT_VALID_PARAMS`, the emitted statement contains at most `k`
named parameters, even when the record holds non-sentinel values in every
generic field slot; only whitelists gate emission, so non-whitelisted
fields are silently omitted.  (Conditions have no whitelist table, so the
claim constrains effects.) -/
theorem C3_whitelist_containment (unitIdMap : Int → Option String)
    (method : String) (wl : List String) (e : Effect)
    (h : EFFECT_VALID_PARAMS.lookup method = some wl) :
    (renderEffectParams unitIdMap method e).length ≤ wl.length := by
  unfold renderEffectParams
  rw [h, Option.getD_some]
  exact le_trans (renderEffectParamsCore_le_filter unitIdMap wl e)
    (filter_contains_length_le wl)

/-- An effect with the `send_chat` type code 3 and every generic field
slot holding a non-sentinel value. -/
def effAll : Effect :=
  ⟨3, some 1, some 2, some "hello", some 5, some 3, some 4, some 1, some 2,
   some 3, some 4, some 110, some 7⟩

/-- Witness for C3: `send_chat` declares a 2-element whitelist and a fully
populated record emits at most 2 parameters. -/
theorem C3_witness :
    EFFECT_VALID_PARAMS.lookup "send_chat" =
        some ["source_player", "message"] ∧
      (renderEffectParams (fun _ => none) "send_chat" effAll).length ≤
        (["source_player", "message"] : List String).length :=
  ⟨by rfl, C3_whitelist_containment (fun _ => none) "send_chat"
    ["source_player", "message"] effAll (by rfl)⟩

end AoE2
